import Mathlib

/-!
Verification of the streaming relay and process-supervision core of the
drone_web server (server.js and its revisions, state.js).

The development shallowly embeds, directly from the JavaScript source:
  - the frame chunker of the FFmpeg stdout data handler (fixed 188 * 21 byte
    chunks cut from an accumulation buffer);
  - the transcoder supervisor state machine (startFFmpeg entry guard,
    error and exit handlers, restart backoff timers, streamon and streamoff
    commands);
  - the WebSocket broadcast loop with its per-client try/catch;
  - the recording endpoints (start-recording, stop-recording) over the
    ServerState store of state.js;
  - the drone telemetry message handler and the capture-photo guard.

Byte streams are lists of natural numbers; process handles are natural
number identifiers; Except models thrown/caught JavaScript exceptions.
-/

/-! ## Frame chunker (startFFmpeg stdout data handler)

From server.js:
  let streamBuffer = Buffer.alloc(0);
  const MPEGTS_PACKET_SIZE = 188;
  const PACKETS_PER_CHUNK = 21;
  const CHUNK_SIZE = MPEGTS_PACKET_SIZE * PACKETS_PER_CHUNK;
  ffmpeg.stdout.on('data', (data) => {
      streamBuffer = Buffer.concat([streamBuffer, data]);
      while (streamBuffer.length >= CHUNK_SIZE) {
          const chunk = streamBuffer.subarray(0, CHUNK_SIZE);
          streamBuffer = streamBuffer.subarray(CHUNK_SIZE);
          ... broadcast chunk ...
      }
  });
-/

def MPEGTS_PACKET_SIZE : Nat := 188

def PACKETS_PER_CHUNK : Nat := 21

def CHUNK_SIZE : Nat := MPEGTS_PACKET_SIZE * PACKETS_PER_CHUNK

/-- The while-loop of the stdout data handler: as long as the accumulation
buffer holds at least CHUNK_SIZE bytes, cut a CHUNK_SIZE-byte chunk off the
front.  Returns the emitted chunks in order together with the retained
remainder. -/
def drainChunks (buf : List Nat) : List (List Nat) × List Nat :=
  if h : CHUNK_SIZE ≤ buf.length then
    let rest := drainChunks (buf.drop CHUNK_SIZE)
    (buf.take CHUNK_SIZE :: rest.1, rest.2)
  else
    ([], buf)
termination_by buf.length
decreasing_by
  simp only [List.length_drop]
  have hc : 0 < CHUNK_SIZE := by decide
  omega

/-- One invocation of the stdout data handler: append the incoming block to
the accumulation buffer, then run the chunk-cutting loop. -/
def handleData (buf data : List Nat) : List (List Nat) × List Nat :=
  drainChunks (buf ++ data)

/-- Feeding a sequence of byte blocks to the data handler, starting from an
accumulation state, collecting all emitted chunks. -/
def runChunkerFrom (buf : List Nat) (blocks : List (List Nat)) :
    List (List Nat) × List Nat :=
  match blocks with
  | [] => ([], buf)
  | data :: rest =>
    let r := handleData buf data
    let r2 := runChunkerFrom r.2 rest
    (r.1 ++ r2.1, r2.2)

/-- Feeding a sequence of byte blocks to a freshly initialized chunker
(streamBuffer = Buffer.alloc(0)). -/
def runChunker (blocks : List (List Nat)) : List (List Nat) × List Nat :=
  runChunkerFrom [] blocks

theorem drainChunks_chunk_length (buf : List Nat) :
    ∀ c ∈ (drainChunks buf).1, c.length = CHUNK_SIZE := by
  induction buf using drainChunks.induct with
  | case1 buf h ih =>
    rw [drainChunks]
    simp only [dif_pos h]
    intro c hc
    rcases List.mem_cons.mp hc with hhd | htl
    · subst hhd
      exact List.length_take_of_le h
    · exact ih c htl
  | case2 buf h =>
    rw [drainChunks]
    simp [dif_neg h]

theorem drainChunks_join (buf : List Nat) :
    (drainChunks buf).1.flatten ++ (drainChunks buf).2 = buf := by
  induction buf using drainChunks.induct with
  | case1 buf h ih =>
    rw [drainChunks]
    simp only [dif_pos h, List.flatten_cons, List.append_assoc]
    rw [ih]
    exact List.take_append_drop CHUNK_SIZE buf
  | case2 buf h =>
    rw [drainChunks]
    simp [dif_neg h]

theorem drainChunks_rem_lt (buf : List Nat) :
    (drainChunks buf).2.length < CHUNK_SIZE := by
  induction buf using drainChunks.induct with
  | case1 buf h ih =>
    rw [drainChunks]
    simpa only [dif_pos h] using ih
  | case2 buf h =>
    rw [drainChunks]
    simp only [dif_neg h]
    omega

theorem runChunkerFrom_chunk_length (blocks : List (List Nat))
    (buf : List Nat) :
    ∀ c ∈ (runChunkerFrom buf blocks).1, c.length = CHUNK_SIZE := by
  induction blocks generalizing buf with
  | nil => simp [runChunkerFrom]
  | cons data rest ih =>
    intro c hc
    simp only [runChunkerFrom, List.mem_append] at hc
    rcases hc with hc | hc
    · exact drainChunks_chunk_length (buf ++ data) c hc
    · exact ih _ c hc

theorem runChunkerFrom_join (blocks : List (List Nat)) (buf : List Nat) :
    (runChunkerFrom buf blocks).1.flatten ++ (runChunkerFrom buf blocks).2 =
      buf ++ blocks.flatten := by
  induction blocks generalizing buf with
  | nil => simp [runChunkerFrom]
  | cons data rest ih =>
    simp only [runChunkerFrom, List.flatten_append, List.flatten_cons]
    rw [List.append_assoc, ih ((handleData buf data).2), ← List.append_assoc]
    have hj : (handleData buf data).1.flatten ++ (handleData buf data).2 =
        buf ++ data := drainChunks_join (buf ++ data)
    rw [hj, List.append_assoc]

/-- C1: for every sequence of arbitrarily-sized byte blocks fed to the frame
chunker's data handler, every emitted chunk has length exactly
CHUNK_SIZE = 21 * 188 = 3948 bytes, and the concatenation of all emitted
chunks followed by the final retained accumulation-buffer remainder equals
the concatenation of all input blocks, in order: the chunker is lossless and
order-preserving and never emits a partial packet. -/
theorem chunker_fixed_size_and_lossless (blocks : List (List Nat)) :
    (runChunker blocks).1.all (fun c => c.length == 3948) = true ∧
      (runChunker blocks).1.flatten ++ (runChunker blocks).2 = blocks.flatten := by
  constructor
  · rw [List.all_eq_true]
    intro c hc
    have h := runChunkerFrom_chunk_length blocks [] c hc
    simpa [CHUNK_SIZE, MPEGTS_PACKET_SIZE, PACKETS_PER_CHUNK] using h
  · simpa using runChunkerFrom_join blocks []

/-- C9: after every invocation of the stdout data handler returns, the
retained accumulation buffer holds strictly fewer than CHUNK_SIZE = 3948
bytes, whatever the prior buffer contents and the incoming block: at most
one partial chunk is ever carried over between incoming blocks. -/
theorem chunker_remainder_bounded (buf data : List Nat) :
    (handleData buf data).2.length < 3948 := by
  have h := drainChunks_rem_lt (buf ++ data)
  simpa [handleData, CHUNK_SIZE, MPEGTS_PACKET_SIZE, PACKETS_PER_CHUNK] using h

/-! ## Transcoder supervisor (server.js: startFFmpeg, streamon/streamoff,
error and exit handlers, restart backoff timers)

From server.js:
  function startFFmpeg() {
      if (ffmpegProcess) { return ffmpegProcess; }      // entry guard
      const ffmpeg = spawn('ffmpeg', [...]);
      ffmpegProcess = ffmpeg;
      ffmpeg.on('error', (error) => {
          if (ffmpegProcess === ffmpeg) { ffmpegProcess = null; }
          if (isStreamingActive) { setTimeout(startFFmpeg, 1000); }
      });
      ffmpeg.on('exit', (code, signal) => {
          if (code !== 0) {
              if (ffmpegProcess === ffmpeg) { ffmpegProcess = null; }
              if (isStreamingActive) { setTimeout(startFFmpeg, 1000); }
          } else {
              if (ffmpegProcess === ffmpeg) { ffmpegProcess = null; }
          }
      });
      return ffmpeg;
  }
  streamon:  if (!ffmpegProcess) { startFFmpeg(); } isStreamingActive = true;
  streamoff: isStreamingActive = false;              // no clearTimeout

Process handles are identified by the natural number assigned at spawn
time.  The state records the global ffmpegProcess variable, the
isStreamingActive flag, the list of spawned-and-not-terminated processes,
and the number of pending setTimeout(startFFmpeg, 1000) restart timers. -/

structure SupervisorState where
  ffmpegProcess : Option Nat
  isStreamingActive : Bool
  liveProcs : List Nat
  pendingRestarts : Nat
  nextPid : Nat
deriving DecidableEq, Repr

/-- The initial state of the server: no process, streaming inactive. -/
def initSupervisor : SupervisorState :=
  { ffmpegProcess := none, isStreamingActive := false, liveProcs := [],
    pendingRestarts := 0, nextPid := 0 }

/-- startFFmpeg of the first server.js variant: if a process handle is
already owned, return it unchanged (entry guard); otherwise spawn a fresh
process, record it as live and store its handle. -/
def startFFmpeg (s : SupervisorState) : SupervisorState :=
  match s.ffmpegProcess with
  | some _ => s
  | none =>
    { s with ffmpegProcess := some s.nextPid,
             liveProcs := s.nextPid :: s.liveProcs,
             nextPid := s.nextPid + 1 }

/-- startFFmpeg of the second server.js variant (and of the earliest
revision): kill the old process before spawning the new one. -/
def startFFmpegKillOld (s : SupervisorState) : SupervisorState :=
  let s1 :=
    match s.ffmpegProcess with
    | some p => { s with liveProcs := s.liveProcs.erase p }
    | none => s
  { s1 with ffmpegProcess := some s1.nextPid,
            liveProcs := s1.nextPid :: s1.liveProcs,
            nextPid := s1.nextPid + 1 }

/-- Events of the supervisor: the streamon and streamoff commands, the
subprocess 'error' and 'exit' callbacks of a given process, and the firing
of a pending setTimeout(startFFmpeg, 1000) restart timer. -/
inductive SupEvent where
  | streamon : SupEvent
  | streamoff : SupEvent
  | procError (pid : Nat) : SupEvent
  | procExit (pid : Nat) (code : Int) : SupEvent
  | timerFire : SupEvent
deriving DecidableEq, Repr

/-- One transition of the supervisor, translated handler by handler from
server.js (first variant). -/
def supStep (s : SupervisorState) (e : SupEvent) : SupervisorState :=
  match e with
  | .streamon =>
    let s1 := startFFmpeg s
    { s1 with isStreamingActive := true }
  | .streamoff =>
    { s with isStreamingActive := false }
  | .procError pid =>
    let s1 := { s with liveProcs := s.liveProcs.erase pid }
    let s2 :=
      if s1.ffmpegProcess = some pid then { s1 with ffmpegProcess := none }
      else s1
    if s2.isStreamingActive then
      { s2 with pendingRestarts := s2.pendingRestarts + 1 }
    else s2
  | .procExit pid code =>
    let s1 := { s with liveProcs := s.liveProcs.erase pid }
    if code ≠ 0 then
      let s2 :=
        if s1.ffmpegProcess = some pid then { s1 with ffmpegProcess := none }
        else s1
      if s2.isStreamingActive then
        { s2 with pendingRestarts := s2.pendingRestarts + 1 }
      else s2
    else
      if s1.ffmpegProcess = some pid then { s1 with ffmpegProcess := none }
      else s1
  | .timerFire =>
    if s.pendingRestarts = 0 then s
    else
      let s1 := { s with pendingRestarts := s.pendingRestarts - 1 }
      startFFmpeg s1

/-- Running the supervisor on a trace of events from the initial state. -/
def supRun (evs : List SupEvent) : SupervisorState :=
  evs.foldl supStep initSupervisor

/-- The structural invariant tying the global ffmpegProcess variable to the
set of live processes: the live list is exactly the owned handle. -/
def SupInv (s : SupervisorState) : Prop :=
  s.liveProcs = s.ffmpegProcess.toList

theorem supInv_init : SupInv initSupervisor := by
  simp [SupInv, initSupervisor]

theorem supInv_startFFmpeg (s : SupervisorState) (h : SupInv s) :
    SupInv (startFFmpeg s) := by
  unfold SupInv at h ⊢
  unfold startFFmpeg
  cases hp : s.ffmpegProcess with
  | some p =>
    rw [hp] at h
    simp [hp, h]
  | none =>
    rw [hp] at h
    simp [hp, h]

theorem supInv_step (s : SupervisorState) (e : SupEvent) (h : SupInv s) :
    SupInv (supStep s e) := by
  cases e with
  | streamon =>
    have h1 := supInv_startFFmpeg s h
    simpa [supStep, SupInv] using h1
  | streamoff =>
    simpa [supStep, SupInv] using h
  | procError pid =>
    unfold SupInv at h ⊢
    cases hp : s.ffmpegProcess with
    | some q =>
      rw [hp] at h
      by_cases hq : q = pid <;>
        simp [supStep, hp, hq, h, List.erase_cons] <;> split <;> simp [hq]
    | none =>
      rw [hp] at h
      simp [supStep, hp, h] <;> split <;> simp
  | procExit pid code =>
    unfold SupInv at h ⊢
    cases hp : s.ffmpegProcess with
    | some q =>
      rw [hp] at h
      by_cases hq : q = pid <;> by_cases hc : code = 0 <;>
        simp [supStep, hp, hq, hc, h, List.erase_cons] <;> split <;> simp [hq]
    | none =>
      rw [hp] at h
      by_cases hc : code = 0 <;>
        simp [supStep, hp, hc, h] <;> split <;> simp
  | timerFire =>
    unfold supStep
    by_cases hz : s.pendingRestarts = 0
    · simpa [hz] using h
    · simp only [hz, if_neg hz]
      exact supInv_startFFmpeg _ (by simpa [SupInv] using h)

theorem supInv_run (evs : List SupEvent) : SupInv (supRun evs) := by
  suffices hgen : ∀ s, SupInv s → SupInv (evs.foldl supStep s) by
    exact hgen initSupervisor supInv_init
  induction evs with
  | nil => intro s hs; exact hs
  | cons e rest ih =>
    intro s hs
    exact ih (supStep s e) (supInv_step s e hs)

theorem killOld_live_le_one (s : SupervisorState) (h : SupInv s) :
    (startFFmpegKillOld s).liveProcs.length ≤ 1 := by
  unfold SupInv at h
  unfold startFFmpegKillOld
  cases hp : s.ffmpegProcess with
  | some p =>
    rw [hp] at h
    simp [hp, h, List.erase_cons]
  | none =>
    rw [hp] at h
    simp [hp, h]

/-- C2: in every reachable state of the supervisor, the number of live
streaming-transcoder subprocesses is at most one; invoking startFFmpeg while
a process handle is already owned is a no-op (second call returns the
existing state), and invoking either startFFmpeg variant (the entry-guard
one or the kill-old-process one) leaves at most one live subprocess: calling
the stream-start operation twice in succession never yields two
simultaneously live transcoder handles. -/
theorem single_transcoder_invariant (evs : List SupEvent) :
    (supRun evs).liveProcs.length ≤ 1 ∧
      ((supRun evs).ffmpegProcess.isSome = true →
        startFFmpeg (supRun evs) = supRun evs) ∧
      (startFFmpeg (supRun evs)).liveProcs.length ≤ 1 ∧
      (startFFmpegKillOld (supRun evs)).liveProcs.length ≤ 1 := by
  have h := supInv_run evs
  have hlen : ∀ t : SupervisorState, SupInv t → t.liveProcs.length ≤ 1 := by
    intro t ht
    unfold SupInv at ht
    rw [ht]
    cases t.ffmpegProcess <;> simp
  refine ⟨hlen _ h, ?_, hlen _ (supInv_startFFmpeg _ h), killOld_live_le_one _ h⟩
  intro hs
  unfold startFFmpeg
  cases hp : (supRun evs).ffmpegProcess with
  | some p => rfl
  | none => rw [hp] at hs; simp at hs

/-- Witness for C2: after the trace [streamon], a process handle is owned
and a second start call is a no-op. -/
theorem single_transcoder_invariant_witness :
    startFFmpeg (supRun [SupEvent.streamon]) = supRun [SupEvent.streamon] :=
  (single_transcoder_invariant [SupEvent.streamon]).2.1 (by decide)

/-- C5 counterexample: after the trace [streamon] the session is marked
desired-active, yet when the subprocess exits with code 0 the handler clears
the owned handle and schedules no restart (pendingRestarts stays 0),
contradicting the claim that an exit for any reason schedules a restart
whenever the session is still desired-active. -/
theorem exit_zero_no_restart_cex :
    (supRun [SupEvent.streamon]).isStreamingActive = true ∧
      (supStep (supRun [SupEvent.streamon])
          (SupEvent.procExit 0 0)).ffmpegProcess = none ∧
      (supStep (supRun [SupEvent.streamon])
          (SupEvent.procExit 0 0)).pendingRestarts = 0 := by
  decide

/-- C5 amended: on a subprocess 'error' event the handler clears the owned
handle (when it still points to that process) and schedules a restart
exactly when the stream is desired-active; on an 'exit' event the handler
clears the owned handle for any exit code, but schedules a restart exactly
when the exit code is nonzero AND the stream is desired-active — a clean
exit (code 0) never schedules a restart, even while desired-active. -/
theorem error_exit_handler_clear_and_restart (s : SupervisorState)
    (pid : Nat) (code : Int) :
    ((s.ffmpegProcess = some pid →
        (supStep s (SupEvent.procError pid)).ffmpegProcess = none) ∧
      (supStep s (SupEvent.procError pid)).pendingRestarts =
        s.pendingRestarts + (if s.isStreamingActive then 1 else 0)) ∧
    ((s.ffmpegProcess = some pid →
        (supStep s (SupEvent.procExit pid code)).ffmpegProcess = none) ∧
      (supStep s (SupEvent.procExit pid code)).pendingRestarts =
        s.pendingRestarts +
          (if code ≠ 0 ∧ s.isStreamingActive then 1 else 0)) := by
  have ha := Bool.eq_false_or_eq_true s.isStreamingActive
  constructor
  · constructor
    · intro hp
      rcases ha with ha | ha <;> simp [supStep, hp, ha]
    · rcases ha with ha | ha <;>
        by_cases hp : s.ffmpegProcess = some pid <;> simp [supStep, hp, ha]
  · constructor
    · intro hp
      by_cases hc : code = 0 <;>
        rcases ha with ha | ha <;> simp [supStep, hp, hc, ha]
    · by_cases hc : code = 0 <;>
        rcases ha with ha | ha <;>
          by_cases hp : s.ffmpegProcess = some pid <;>
            simp [supStep, hp, hc, ha]

/-- Witness for C5 amended: concrete state owning process 5, desired-active,
exit with code 0 clears the handle and schedules nothing. -/
theorem error_exit_handler_clear_and_restart_witness :
    (supStep ⟨some 5, true, [5], 0, 6⟩
      (SupEvent.procExit 5 0)).ffmpegProcess = none :=
  ((error_exit_handler_clear_and_restart ⟨some 5, true, [5], 0, 6⟩ 5 0).2.1)
    rfl

/-- C7 counterexample: trace streamon, subprocess exit with code 1 (restart
scheduled), explicit streamoff; the pending restart timer is not cancelled,
and when it fires it launches a new transcoder subprocess (process 1 becomes
live) even though the stream was explicitly stopped. -/
theorem restart_timer_not_cancelled_cex :
    (supRun [SupEvent.streamon, SupEvent.procExit 0 1,
        SupEvent.streamoff]).pendingRestarts = 1 ∧
      (supRun [SupEvent.streamon, SupEvent.procExit 0 1,
          SupEvent.streamoff]).isStreamingActive = false ∧
      (supRun [SupEvent.streamon, SupEvent.procExit 0 1,
          SupEvent.streamoff]).liveProcs = [] ∧
      (supRun [SupEvent.streamon, SupEvent.procExit 0 1, SupEvent.streamoff,
          SupEvent.timerFire]).liveProcs = [1] := by
  decide

/-- C7 amended: stopping the stream does not cancel a pending
restart-backoff timer.  From any state with no owned handle and at least one
pending restart, stopping the stream and letting the backoff elapse launches
a new transcoder subprocess (the entry guard does not consult the streaming
flag); only a restart that has not yet been scheduled is prevented, because
an exit arriving after the stop finds the desired-active flag false and
schedules nothing. -/
theorem pending_restart_fires_after_stop (s : SupervisorState)
    (hf : s.ffmpegProcess = none) (hp : s.pendingRestarts ≠ 0) :
    (supStep (supStep s SupEvent.streamoff)
        SupEvent.timerFire).ffmpegProcess = some s.nextPid ∧
      (supStep (supStep s SupEvent.streamoff)
          SupEvent.timerFire).liveProcs = s.nextPid :: s.liveProcs ∧
      (∀ pid code, (supStep (supStep s SupEvent.streamoff)
          (SupEvent.procExit pid code)).pendingRestarts =
        s.pendingRestarts) := by
  refine ⟨?_, ?_, ?_⟩
  · simp [supStep, hp, startFFmpeg, hf]
  · simp [supStep, hp, startFFmpeg, hf]
  · intro pid code
    by_cases hc : code = 0 <;> simp [supStep, hc, hf] <;> split <;> simp_all

/-- Witness for C7 amended: the concrete post-stop state of the
counterexample trace, where the timer fire spawns process 1. -/
theorem pending_restart_fires_after_stop_witness :
    (supStep (supStep (supRun [SupEvent.streamon, SupEvent.procExit 0 1])
        SupEvent.streamoff) SupEvent.timerFire).ffmpegProcess = some 1 :=
  (pending_restart_fires_after_stop
    (supRun [SupEvent.streamon, SupEvent.procExit 0 1])
    (by decide) (by decide)).1

/-! ## Viewer broadcast loop (startFFmpeg stdout data handler)

From server.js:
  clients.forEach((client) => {
      if (client.readyState === 1) {
          try {
              client.send(chunk, { binary: true });
          } catch (err) {
              handleError(ErrorTypes.NETWORK, ...);
              clients.delete(client);
          }
      }
  });

A viewer is modelled by its client id, its readyState, and whether its send
method always throws.  The broadcast returns the set of viewers still
registered after the loop and the (clientId, frame) deliveries made, as an
Except so that an uncaught exception would surface as an error value. -/

structure WsViewer where
  clientId : Nat
  readyState : Nat
  sendThrows : Bool
deriving DecidableEq, Repr

/-- client.send(chunk): throws exactly when the viewer's send always
throws. -/
def clientSend (v : WsViewer) : Except String Unit :=
  if v.sendThrows then Except.error "send failed" else Except.ok ()

/-- The broadcast loop with its per-client try/catch: a throwing client is
deleted from the registry and iteration continues. -/
def broadcastFrame (frame : List Nat) :
    List WsViewer → Except String (List WsViewer × List (Nat × List Nat))
  | [] => Except.ok ([], [])
  | v :: rest =>
    if v.readyState = 1 then
      match clientSend v with
      | Except.error _ => broadcastFrame frame rest
      | Except.ok _ =>
        match broadcastFrame frame rest with
        | Except.error e => Except.error e
        | Except.ok r => Except.ok (v :: r.1, (v.clientId, frame) :: r.2)
    else
      match broadcastFrame frame rest with
      | Except.error e => Except.error e
      | Except.ok r => Except.ok (v :: r.1, r.2)

/-- The same loop as a pure function: viewers that are open and whose send
throws are dropped from the registry; open viewers whose send succeeds
receive the frame; viewers that are not open stay registered untouched. -/
def broadcastPure (frame : List Nat) :
    List WsViewer → List WsViewer × List (Nat × List Nat)
  | [] => ([], [])
  | v :: rest =>
    let r := broadcastPure frame rest
    if v.readyState = 1 then
      if v.sendThrows then r
      else (v :: r.1, (v.clientId, frame) :: r.2)
    else (v :: r.1, r.2)

theorem broadcastFrame_eq_ok (frame : List Nat) (cs : List WsViewer) :
    broadcastFrame frame cs = Except.ok (broadcastPure frame cs) := by
  induction cs with
  | nil => rfl
  | cons v rest ih =>
    by_cases ho : v.readyState = 1 <;>
      by_cases ht : v.sendThrows <;>
        simp [broadcastFrame, broadcastPure, clientSend, ho, ht, ih]

theorem broadcastPure_registered (frame : List Nat) (cs : List WsViewer) :
    (broadcastPure frame cs).1 =
      cs.filter (fun v => !(v.readyState == 1 && v.sendThrows)) := by
  induction cs with
  | nil => rfl
  | cons v rest ih =>
    by_cases ho : v.readyState = 1 <;>
      by_cases ht : v.sendThrows <;>
        simp [broadcastPure, ho, ht, ih, List.filter_cons]

theorem broadcastPure_length (frame : List Nat) (cs : List WsViewer) :
    (broadcastPure frame cs).1.length +
      cs.countP (fun v => v.readyState == 1 && v.sendThrows) = cs.length := by
  induction cs with
  | nil => rfl
  | cons v rest ih =>
    by_cases ho : v.readyState = 1 <;>
      by_cases ht : v.sendThrows <;>
        simp [broadcastPure, List.countP_cons, ho, ht] <;> omega

theorem broadcastPure_received (frame : List Nat) (cs : List WsViewer) :
    ∀ v ∈ cs, v.readyState = 1 → v.sendThrows = false →
      v ∈ (broadcastPure frame cs).1 ∧
        (v.clientId, frame) ∈ (broadcastPure frame cs).2 := by
  induction cs with
  | nil => simp
  | cons w rest ih =>
    intro v hv ho ht
    rcases List.mem_cons.mp hv with hh | hm
    · subst hh
      simp [broadcastPure, ho, ht]
    · have hr := ih v hm ho ht
      by_cases hwo : w.readyState = 1 <;>
        by_cases hwt : w.sendThrows <;>
          simp [broadcastPure, hwo, hwt, hr.1, hr.2]

/-- C3: for a set of registered viewers in which exactly one viewer's send
operation always throws (and that viewer's connection is open), broadcasting
one frame (a) raises no exception out of the loop, (b) leaves exactly N-1
viewers registered, (c) delivers the frame to every open viewer whose send
does not throw and keeps each of them registered, and (d) unregisters the
throwing viewer. -/
theorem broadcast_isolation (clients : List WsViewer) (frame : List Nat)
    (h1 : clients.countP (fun v => v.sendThrows) = 1)
    (h2 : ∀ v ∈ clients, v.sendThrows = true → v.readyState = 1) :
    broadcastFrame frame clients =
        Except.ok (broadcastPure frame clients) ∧
      (broadcastPure frame clients).1.length + 1 = clients.length ∧
      (∀ v ∈ clients, v.readyState = 1 → v.sendThrows = false →
        v ∈ (broadcastPure frame clients).1 ∧
          (v.clientId, frame) ∈ (broadcastPure frame clients).2) ∧
      (∀ v ∈ clients, v.sendThrows = true →
        v ∉ (broadcastPure frame clients).1) := by
  have hcount : clients.countP (fun v => v.readyState == 1 && v.sendThrows) =
      clients.countP (fun v => v.sendThrows) := by
    apply List.countP_congr
    intro v hv
    by_cases ht : v.sendThrows
    · simp [ht, h2 v hv ht]
    · simp [ht]
  refine ⟨broadcastFrame_eq_ok frame clients, ?_, ?_, ?_⟩
  · have hl := broadcastPure_length frame clients
    rw [hcount, h1] at hl
    exact hl
  · exact broadcastPure_received frame clients
  · intro v hv ht
    rw [broadcastPure_registered]
    simp [List.mem_filter, ht, h2 v hv ht]

/-- Witness for C3: three viewers, viewer 1 open and always throwing,
viewer 0 open and healthy, viewer 2 not open; after one broadcast exactly
two viewers remain registered. -/
theorem broadcast_isolation_witness :
    (broadcastPure [7] [⟨0, 1, false⟩, ⟨1, 1, true⟩, ⟨2, 0, false⟩]).1.length
        + 1 = 3 :=
  (broadcast_isolation [⟨0, 1, false⟩, ⟨1, 1, true⟩, ⟨2, 0, false⟩] [7]
    (by decide) (by decide)).2.1

/-! ## Recording sink (latest server revision: initializeMP4Process,
POST /start-recording, POST /stop-recording over serverState of state.js)

From the source:
  app.post('/start-recording', (req, res) => {
      if (serverState.video.recording.active) { ... 400 'Recording already in progress' }
      if (!serverState.video.recording.process) { initializeMP4Process(); }
      if (!serverState.video.recording.process ||
          !serverState.video.recording.process.stdin.writable) { ... 500 }
      serverState.video.recording.active = true;
      res.json({ mp4FileName: basename(serverState.video.recording.filePath) });
  });
  app.post('/stop-recording', async (req, res) => {
      if (!serverState.video.recording.active) { ... 400 'No active recording' }
      serverState.video.recording.active = false;
      if (serverState.video.recording.process) {
          serverState.video.recording.process.stdin.end();
          await ... 5000 ms timeout, kill('SIGKILL') on timeout ...
          serverState.video.recording.process = null;
          serverState.video.recording.filePath = null;
      }
      res.send('Recording stopped');
  });

Note that the start-recording route never consults the stream session state.
Spawn success and stdin writability are environment inputs; the spawned
process is identified by the request timestamp. -/

structure RecordingState where
  active : Bool
  process : Option Nat
  filePath : Option String
deriving DecidableEq, Repr

/-- initializeMP4Process: no-op when a recording process already exists;
otherwise derive the timestamped file path and spawn the MP4 FFmpeg
subprocess (on spawn failure the catch clears both fields). -/
def initializeMP4Process (rec : RecordingState) (timestamp : Nat)
    (spawnOk : Bool) : RecordingState :=
  if rec.process.isSome then rec
  else if spawnOk then
    { active := rec.active, process := some timestamp,
      filePath := some ("video_" ++ toString timestamp ++ ".mp4") }
  else
    { active := rec.active, process := none, filePath := none }

/-- Outcome of the start-recording route. -/
inductive StartRecResult where
  | alreadyInProgress : StartRecResult
  | initFailed : StartRecResult
  | started (fileName : Option String) : StartRecResult
deriving DecidableEq, Repr

/-- POST /start-recording.  The streamProcess argument is the stream
session's transcoder handle from the state store; the route body never reads
it, exactly as in the source. -/
def startRecording (streamProcess : Option Nat) (rec : RecordingState)
    (timestamp : Nat) (spawnOk stdinWritable : Bool) :
    RecordingState × StartRecResult :=
  if rec.active then (rec, StartRecResult.alreadyInProgress)
  else
    let rec1 := if rec.process.isSome then rec
                else initializeMP4Process rec timestamp spawnOk
    if rec1.process.isNone || !stdinWritable then
      (rec1, StartRecResult.initFailed)
    else
      ({ rec1 with active := true }, StartRecResult.started rec1.filePath)

/-- Effects of the stop-recording route on the recording subprocess. -/
structure StopActions where
  stdinEnded : Bool
  killed : Bool
deriving DecidableEq, Repr

/-- POST /stop-recording.  exitsInTime says whether the MP4 subprocess exits
within the 5-second bounded wait; on timeout it is killed with SIGKILL.  The
session fields are cleared regardless of which path was taken. -/
def stopRecording (rec : RecordingState) (exitsInTime : Bool) :
    RecordingState × Except String StopActions :=
  if rec.active = false then
    (rec, Except.error "No active recording")
  else
    match rec.process with
    | none =>
      ({ rec with active := false }, Except.ok ⟨false, false⟩)
    | some _ =>
      (⟨false, none, none⟩, Except.ok ⟨true, !exitsInTime⟩)

/-- C4 counterexample: with no stream session active (stream process handle
none) and no recording in progress, a start-recording request is NOT
rejected: it spawns an MP4 subprocess (handle 42), marks recording active
and answers with the generated file name, contradicting the claim that such
a request is rejected with a stream-not-active error and creates no
subprocess. -/
theorem recording_without_stream_cex :
    (startRecording none ⟨false, none, none⟩ 42 true true).1.process
        = some 42 ∧
      (startRecording none ⟨false, none, none⟩ 42 true true).1.active
        = true ∧
      (startRecording none ⟨false, none, none⟩ 42 true true).2
        = StartRecResult.started (some "video_42.mp4") := by
  decide

/-- C4 amended: the start-recording route never consults the stream
session: its result is identical whatever the stream's transcoder handle,
and a request made while no recording is active (with a healthy spawn and a
writable stdin) creates the recording subprocess and reports the file name
even when no stream session is active.  The only rejection guard is
recording-already-in-progress. -/
theorem start_recording_ignores_stream (streamProcess other : Option Nat)
    (rec : RecordingState) (timestamp : Nat) (spawnOk stdinWritable : Bool) :
    startRecording streamProcess rec timestamp spawnOk stdinWritable =
        startRecording other rec timestamp spawnOk stdinWritable ∧
      (rec.active = true →
        startRecording streamProcess rec timestamp spawnOk stdinWritable =
          (rec, StartRecResult.alreadyInProgress)) ∧
      (rec.active = false → rec.process = none → spawnOk = true →
        stdinWritable = true →
        (startRecording streamProcess rec timestamp spawnOk
            stdinWritable).1.process = some timestamp ∧
          (startRecording streamProcess rec timestamp spawnOk
              stdinWritable).2 =
            StartRecResult.started
              (some ("video_" ++ toString timestamp ++ ".mp4"))) := by
  refine ⟨rfl, ?_, ?_⟩
  · intro ha
    simp [startRecording, ha]
  · intro ha hp hs hw
    subst hs hw
    simp [startRecording, ha, hp, initializeMP4Process]

/-- Witness for C4 amended: concrete idle recording state, no stream
session, successful spawn: the subprocess handle is recorded. -/
theorem start_recording_ignores_stream_witness :
    (startRecording none ⟨false, none, none⟩ 7 true true).1.process
      = some 7 :=
  ((start_recording_ignores_stream none (some 99) ⟨false, none, none⟩ 7
    true true).2.2 rfl rfl rfl rfl).1

/-- C6: stop-recording fails with a not-active error when no recording
session exists, leaving the state unchanged; otherwise it signals
end-of-input to the recording subprocess exactly when one exists, kills it
exactly when it does not exit within the bounded wait, and clears the whole
recording session (active flag, process handle, file path) regardless of
which path was taken. -/
theorem stop_recording_spec (rec : RecordingState) (exitsInTime : Bool)
    (hinv : rec.process = none → rec.filePath = none) :
    (rec.active = false →
      stopRecording rec exitsInTime =
        (rec, Except.error "No active recording")) ∧
    (rec.active = true →
      ∃ a, (stopRecording rec exitsInTime).2 = Except.ok a ∧
        a.stdinEnded = rec.process.isSome ∧
        a.killed = (rec.process.isSome && !exitsInTime) ∧
        (stopRecording rec exitsInTime).1.active = false ∧
        (stopRecording rec exitsInTime).1.process = none ∧
        (stopRecording rec exitsInTime).1.filePath = none) := by
  constructor
  · intro ha
    simp [stopRecording, ha]
  · intro ha
    cases hp : rec.process with
    | none =>
      refine ⟨⟨false, false⟩, ?_⟩
      simp [stopRecording, ha, hp, hinv hp]
    | some p =>
      refine ⟨⟨true, !exitsInTime⟩, ?_⟩
      simp [stopRecording, ha, hp]

/-- Witness for C6: an active recording with subprocess 3 and its file path,
stopped when the subprocess does not exit in time: end-of-input is
signalled, the kill path is taken, and the session is fully cleared. -/
theorem stop_recording_spec_witness :
    ∃ a, (stopRecording ⟨true, some 3, some "video_3.mp4"⟩ false).2 =
        Except.ok a ∧
      a.stdinEnded = (some 3 : Option Nat).isSome ∧
      a.killed = ((some 3 : Option Nat).isSome && !false) ∧
      (stopRecording ⟨true, some 3, some "video_3.mp4"⟩ false).1.active
        = false ∧
      (stopRecording ⟨true, some 3, some "video_3.mp4"⟩ false).1.process
        = none ∧
      (stopRecording ⟨true, some 3, some "video_3.mp4"⟩ false).1.filePath
        = none :=
  (stop_recording_spec ⟨true, some 3, some "video_3.mp4"⟩ false
    (by simp)).2 rfl

/-! ## Command relay telemetry handler (latest server revision:
droneClient.on('message') and ServerState.updateDroneState of state.js)

From the source:
  droneClient.on('message', (msg) => {
      const response = msg.toString().trim();
      if (!isNaN(response)) {
          serverState.updateDroneState('battery', parseInt(response));
      } else if (response.includes('cm/s')) {
          serverState.updateDroneState('speed', response);
      } else if (response.includes('s')) {
          serverState.updateDroneState('time', response);
      }
      const update = JSON.stringify({ type: 'droneState',
          value: serverState.getDroneState(), timestamp: Date.now() });
      serverState.getConnectedClients().forEach(client => client.send(update));
  });
  updateDroneState(key, value) {
      this.drone.state[key] = value;
      this.drone.state.lastUpdate = Date.now();
  }

Message text is modelled as a list of characters so every operation is
executable.  The numeric test models !isNaN for the digit-run payloads the
drone sends, and parseInt agrees with it on those payloads. -/

structure TelemetrySnapshot where
  battery : Option Int
  speed : Option (List Char)
  time : Option (List Char)
  lastUpdate : Option Nat
deriving DecidableEq, Repr

/-- msg.toString().trim(): strip leading and trailing whitespace. -/
def jsTrim (s : List Char) : List Char :=
  ((s.dropWhile Char.isWhitespace).reverse.dropWhile Char.isWhitespace).reverse

/-- !isNaN(response) for the nonempty decimal-digit payloads the drone
emits. -/
def jsIsIntString (s : List Char) : Bool :=
  !s.isEmpty && s.all Char.isDigit

/-- parseInt(response) on a decimal-digit payload. -/
def parseIntDigits (s : List Char) : Int :=
  Int.ofNat (s.foldl (fun a c => 10 * a + (c.toNat - 48)) 0)

/-- response.includes(pat): substring containment. -/
def listIncludes (pat : List Char) : List Char → Bool
  | [] => pat.isEmpty
  | c :: t => pat.isPrefixOf (c :: t) || listIncludes pat t

/-- The classification chain of the message handler, updating the
TelemetrySnapshot in the state store. -/
def classifyDroneResponse (now : Nat) (st : TelemetrySnapshot)
    (response : List Char) : TelemetrySnapshot :=
  if jsIsIntString response then
    { st with battery := some (parseIntDigits response),
              lastUpdate := some now }
  else if listIncludes "cm/s".toList response then
    { st with speed := some response, lastUpdate := some now }
  else if listIncludes "s".toList response then
    { st with time := some response, lastUpdate := some now }
  else st

/-- The structured state message broadcast to the viewers. -/
structure DroneStateMsg where
  msgType : String
  value : TelemetrySnapshot
  timestamp : Nat
deriving DecidableEq, Repr

/-- The full 'message' handler: trim, classify into the snapshot, then send
the droneState update to every connected client whose readyState is 1.
Returns the new snapshot, the update message, and the ids it was sent to. -/
def handleDroneMessage (now : Nat) (st : TelemetrySnapshot)
    (clients : List WsViewer) (rawMsg : List Char) :
    TelemetrySnapshot × DroneStateMsg × List Nat :=
  let response := jsTrim rawMsg
  let st1 := classifyDroneResponse now st response
  (st1, ⟨"droneState", st1, now⟩,
    (clients.filter (fun c => c.readyState == 1)).map (fun c => c.clientId))

/-- C8: for every numeric UDP telemetry response received right after the
command battery? was sent, the message handler updates the snapshot's
battery field to that numeric value and its last-update timestamp to the
processing time, and a message of shape
(type droneState, value = the updated snapshot, timestamp) is delivered to
every viewer whose connection is open, in the same processing turn. -/
theorem telemetry_battery_roundtrip (now : Nat) (st : TelemetrySnapshot)
    (clients : List WsViewer) (rawMsg : List Char) (lastCommand : String)
    (hcmd : lastCommand = "battery?")
    (hnum : jsIsIntString (jsTrim rawMsg) = true) :
    (handleDroneMessage now st clients rawMsg).1.battery =
        some (parseIntDigits (jsTrim rawMsg)) ∧
      (handleDroneMessage now st clients rawMsg).1.lastUpdate = some now ∧
      (handleDroneMessage now st clients rawMsg).2.1 =
        ⟨"droneState", (handleDroneMessage now st clients rawMsg).1, now⟩ ∧
      (∀ c ∈ clients, c.readyState = 1 →
        c.clientId ∈ (handleDroneMessage now st clients rawMsg).2.2) := by
  refine ⟨?_, ?_, rfl, ?_⟩
  · simp [handleDroneMessage, classifyDroneResponse, hnum]
  · simp [handleDroneMessage, classifyDroneResponse, hnum]
  · intro c hc ho
    simp only [handleDroneMessage, List.mem_map]
    exact ⟨c, List.mem_filter.mpr ⟨hc, by simp [ho]⟩, rfl⟩

/-- Witness for C8: the payload 87 arriving after battery? updates the
battery field of an all-unknown snapshot to 87. -/
theorem telemetry_battery_roundtrip_witness :
    (handleDroneMessage 5 ⟨none, none, none, none⟩ [⟨3, 1, false⟩]
        "87".toList).1.battery =
      some (parseIntDigits (jsTrim "87".toList)) :=
  (telemetry_battery_roundtrip 5 ⟨none, none, none, none⟩ [⟨3, 1, false⟩]
    "87".toList "battery?" rfl (by decide)).1

/-! ## Photo capture endpoint (server.js: POST /capture-photo)

From server.js:
  app.post('/capture-photo', async (req, res) => {
      if (!ffmpegProcess) {
          return handleError(ErrorTypes.STREAM, 'Video stream not active', res);
      }
      ... fs.promises.access(currentFramePath) ...
      ... up to 3 attempts of fs.promises.copyFile + fs.promises.stat ...
  });

handleError with ErrorTypes.STREAM answers HTTP status 503.  The filesystem
operations the route performs are recorded in order. -/

inductive FsOp where
  | accessCheck (path : String) : FsOp
  | copyFile (src dst : String) : FsOp
  | statFile (path : String) : FsOp
deriving DecidableEq, Repr

/-- POST /capture-photo: returns the HTTP status and the list of filesystem
operations performed.  frameExists says whether current_frame.jpg exists;
copyOk whether a copy attempt produces a non-empty file (all three retries
behave alike). -/
def capturePhoto (ffmpegProcess : Option Nat) (frameExists copyOk : Bool)
    (timestamp : Nat) : Nat × List FsOp :=
  match ffmpegProcess with
  | none => (503, [])
  | some _ =>
    let currentFramePath := "current_frame.jpg"
    let finalPhotoPath := "photo_" ++ toString timestamp ++ ".jpg"
    if frameExists = false then
      (500, [FsOp.accessCheck currentFramePath])
    else if copyOk then
      (200, [FsOp.accessCheck currentFramePath,
             FsOp.copyFile currentFramePath finalPhotoPath,
             FsOp.statFile finalPhotoPath])
    else
      (500, [FsOp.accessCheck currentFramePath,
             FsOp.copyFile currentFramePath finalPhotoPath,
             FsOp.copyFile currentFramePath finalPhotoPath,
             FsOp.copyFile currentFramePath finalPhotoPath])

/-- C10: every capture-photo request made while no streaming-transcoder
process handle is recorded in the state store is answered with the error
status 503 and performs no filesystem operation at all: no photo file is
created and the current-frame file is neither read nor copied. -/
theorem capture_photo_requires_stream (frameExists copyOk : Bool)
    (timestamp : Nat) :
    capturePhoto none frameExists copyOk timestamp = (503, []) := rfl
